import Mathlib

/-!
Verification of the KernelForge build-plan resolution core.

The definitions below are a shallow embedding of the Rust sources under
`src-tauri/src/core/` (`version.rs`, `patches.rs`, `config.rs`,
`build_plan.rs`).  Rust `HashMap<String, Option<String>>` is modelled as an
association list with insert-or-replace semantics (the code never observes
hash order: emission sorts the keys).  Rust `String::to_lowercase` and
`str::trim` are modelled character-wise over the string's character list,
which agrees with the Rust functions on the ASCII inputs the version
registry deals with.

`ConfigGenerator`, `ConfigOption` and `ConfigValue` are declared in
`lib.rs` and used by `build_plan.rs` and the integration tests, but their
definitions are not part of the sources; they are modelled from the
specification where marked.
-/

set_option maxHeartbeats 1000000

/-- Character-wise ASCII lowering of a string, the embedding of Rust
`String::to_lowercase` on the ASCII inputs used by the version registry. -/
def lowerAscii (s : String) : String :=
  String.mk (s.data.map Char.toLower)

/-- Remove leading and trailing whitespace from a character list. -/
def trimChars (l : List Char) : List Char :=
  ((l.dropWhile Char.isWhitespace).reverse.dropWhile Char.isWhitespace).reverse

/-- The embedding of Rust `str::trim`. -/
def trimStr (s : String) : String :=
  String.mk (trimChars s.data)

/-- Supported Linux kernel versions (`version.rs`, enum `KernelVersion`). -/
inductive KernelVersion where
  | V6_6_Lts
  | V6_17
deriving DecidableEq, Repr

/-- `KernelVersion::default_target` (`version.rs`). -/
def KernelVersion.default_target : KernelVersion :=
  KernelVersion.V6_6_Lts

/-- `KernelVersion::from_string` (`version.rs`): lower-case and trim the
input, then match against the fixed table of accepted spellings. -/
def KernelVersion.from_string (s : String) : Option KernelVersion :=
  let normalized := trimStr (lowerAscii s)
  if normalized = "6.6" ∨ normalized = "6.6-lts" ∨ normalized = "6.6_lts" ∨
      normalized = "v6.6" ∨ normalized = "v6_6_lts" then
    some KernelVersion.V6_6_Lts
  else if normalized = "6.17" ∨ normalized = "v6.17" ∨ normalized = "v6_17" then
    some KernelVersion.V6_17
  else
    none

/-- `KernelVersion::to_string` (`version.rs`). -/
def KernelVersion.to_string (v : KernelVersion) : String :=
  match v with
  | KernelVersion.V6_6_Lts => "6.6-LTS"
  | KernelVersion.V6_17 => "6.17"

/-- The spellings accepted for 6.6 LTS after normalization (`version.rs`,
the first match arm of `from_string`). -/
def spellings_6_6 : List String :=
  ["6.6", "6.6-lts", "6.6_lts", "v6.6", "v6_6_lts"]

/-- The spellings accepted for 6.17 after normalization (`version.rs`,
the second match arm of `from_string`). -/
def spellings_6_17 : List String :=
  ["6.17", "v6.17", "v6_17"]

/-- A patch record (`patches.rs`, struct `Patch`). -/
structure Patch where
  name : String
  description : String
  source : String
  is_upstream : Bool
deriving DecidableEq, Repr

namespace PatchResolver

/-- `PatchResolver::get_v6_6_patches` (`patches.rs`). -/
def get_v6_6_patches : List Patch :=
  [⟨"BORE",
    "Burst-Oriented Response Enhancer scheduler - reduces latency for gaming",
    "https://github.com/firelzrd/bore-scheduler/6.6", false⟩,
   ⟨"BBRv3",
    "TCP BBR v3 congestion control - improves network performance",
    "https://github.com/google/bbr/v3-6.6", false⟩,
   ⟨"FUTEX2",
    "Futex2 system call - already in 6.6, no external patch needed",
    "upstream", true⟩,
   ⟨"PREEMPT_RT",
    "Real-time preemption patches for low latency",
    "https://kernel.org/pub/linux/kernel/projects/rt/6.6/", false⟩]

/-- `PatchResolver::get_v6_17_patches` (`patches.rs`). -/
def get_v6_17_patches : List Patch :=
  [⟨"BORE",
    "Burst-Oriented Response Enhancer scheduler - reduces latency for gaming (6.17 compatible)",
    "https://github.com/firelzrd/bore-scheduler/6.17", false⟩,
   ⟨"BBRv3",
    "TCP BBR v3 congestion control - many improvements in 6.17 mainline",
    "upstream", true⟩,
   ⟨"FUTEX2",
    "Futex2 system call - upstream in mainline since 5.16",
    "upstream", true⟩]

/-- `PatchResolver::get_patches_for_version` (`patches.rs`). -/
def get_patches_for_version (version : KernelVersion) : List Patch :=
  match version with
  | KernelVersion.V6_6_Lts => get_v6_6_patches
  | KernelVersion.V6_17 => get_v6_17_patches

/-- `PatchResolver::get_external_patches` (`patches.rs`). -/
def get_external_patches (version : KernelVersion) : List Patch :=
  (get_patches_for_version version).filter (fun p => !p.is_upstream)

end PatchResolver

/-- A kernel configuration (`config.rs`, struct `KernelConfig`).  The Rust
`HashMap<String, Option<String>>` is modelled as an association list whose
entries are kept key-unique by the insert operation; the code only observes
the map through lookups and through the sorted key list, so any key-unique
representation is adequate. -/
structure KernelConfig where
  config_map : List (String × Option String)
deriving DecidableEq, Repr

/-- Insert-or-replace into the association-list model of the map
(`HashMap::insert`). -/
def insertMap (m : List (String × Option String)) (k : String)
    (v : Option String) : List (String × Option String) :=
  m.filter (fun p => !(p.1 == k)) ++ [(k, v)]

/-- `KernelConfig::new` (`config.rs`). -/
def KernelConfig.new : KernelConfig :=
  ⟨[]⟩

/-- `KernelConfig::set` (`config.rs`). -/
def KernelConfig.set (c : KernelConfig) (name value : String) : KernelConfig :=
  ⟨insertMap c.config_map name (some value)⟩

/-- `KernelConfig::unset` (`config.rs`). -/
def KernelConfig.unset (c : KernelConfig) (name : String) : KernelConfig :=
  ⟨insertMap c.config_map name none⟩

/-- The sorted key list computed at the start of `KernelConfig::emit`
(`config.rs`: collect the keys, then `keys.sort()`). -/
def sortedKeys (c : KernelConfig) : List String :=
  List.insertionSort (fun a b => a ≤ b) (c.config_map.map Prod.fst)

/-- The line `emit` prints for a key that is present in the map:
`KEY=VALUE` for a set key, `# KEY is not set` for an unset key
(`config.rs`, the loop body of `emit`). -/
def lineFor (c : KernelConfig) (k : String) : String :=
  match List.lookup k c.config_map with
  | some (some v) => k ++ "=" ++ v
  | _ => "# " ++ k ++ " is not set"

/-- `KernelConfig::emit` (`config.rs`): iterate the sorted keys, look each
one up, print its line, join with newlines and append one trailing
newline. -/
def KernelConfig.emit (c : KernelConfig) : String :=
  String.intercalate "\n"
    ((sortedKeys c).filterMap (fun k =>
      (List.lookup k c.config_map).map (fun vo =>
        match vo with
        | some v => k ++ "=" ++ v
        | none => "# " ++ k ++ " is not set"))) ++ "\n"

/-- The loop body of `KernelConfig::apply_bloat_removal` (`config.rs`):
dispatch on the category name; the two categories already handled by the
baseline and every unknown name leave the configuration untouched. -/
def bloatStep (c : KernelConfig) (cat : String) : KernelConfig :=
  if cat = "Architecture Cleanup" then c
  else if cat = "Industrial Hardware Removal" then
    ((((c.unset "CONFIG_INFINIBAND").unset "CONFIG_FIBRE_CHANNEL").unset
      "CONFIG_SCSI_TAPE").unset "CONFIG_LEGACY_HARDWARE")
  else if cat = "Enterprise Features Removal" then
    ((c.unset "CONFIG_CLUSTERING").unset "CONFIG_MAINFRAME_SUPPORT")
  else if cat = "Embedded Systems Removal" then
    (((c.unset "CONFIG_SPI").unset "CONFIG_I2C_SENSORS").unset
      "CONFIG_INDUSTRIAL_BUSES")
  else if cat = "Legacy Hardware Removal" then c
  else if cat = "Networking Protocols Cleanup" then
    ((((c.unset "CONFIG_DECNET").unset "CONFIG_APPLETALK").unset
      "CONFIG_X25").unset "CONFIG_AMATEUR_RADIO")
  else c

/-- `KernelConfig::apply_bloat_removal` (`config.rs`). -/
def KernelConfig.apply_bloat_removal (c : KernelConfig)
    (categories : List String) : KernelConfig :=
  categories.foldl bloatStep c

/-- The category names `apply_bloat_removal` recognizes (`config.rs`, the
non-wildcard match arms). -/
def knownCategories : List String :=
  ["Architecture Cleanup", "Industrial Hardware Removal",
   "Enterprise Features Removal", "Embedded Systems Removal",
   "Legacy Hardware Removal", "Networking Protocols Cleanup"]

/-- The option keys that some category of `apply_bloat_removal` records an
unset for (`config.rs`, the union of the unset calls over all match
arms). -/
def bloatKeys : List String :=
  ["CONFIG_INFINIBAND", "CONFIG_FIBRE_CHANNEL", "CONFIG_SCSI_TAPE",
   "CONFIG_LEGACY_HARDWARE", "CONFIG_CLUSTERING", "CONFIG_MAINFRAME_SUPPORT",
   "CONFIG_SPI", "CONFIG_I2C_SENSORS", "CONFIG_INDUSTRIAL_BUSES",
   "CONFIG_DECNET", "CONFIG_APPLETALK", "CONFIG_X25", "CONFIG_AMATEUR_RADIO"]

/-- One call against the mutable configuration builder: either
`set(name, value)` or `unset(name)` (`config.rs`). -/
inductive Op where
  | set (name value : String)
  | unset (name : String)

/-- Perform one call on a configuration. -/
def applyOp (c : KernelConfig) : Op → KernelConfig
  | Op.set n v => c.set n v
  | Op.unset n => c.unset n

/-- Perform a sequence of `set`/`unset` calls in order. -/
def applyOps (ops : List Op) (c : KernelConfig) : KernelConfig :=
  ops.foldl applyOp c

/-- A configuration option value.  Modelled from the spec: `ConfigValue` is
re-exported from `core::config` in `lib.rs` but its definition is missing
from the sources; §3 of the spec describes the value as "an explicit value
(boolean-yes, boolean-module, string, or numeric encoded as string) or an
explicit 'not set' marker", and the integration tests use
`ConfigValue::Yes`. -/
inductive ConfigValue where
  | yes
  | module
  | str (s : String)
  | notSet
deriving DecidableEq, Repr

/-- A keyed configuration option.  Modelled from the spec: `ConfigOption`
is re-exported from `core::config` in `lib.rs` but its definition is
missing from the sources; §3 of the spec describes it as "a key (option
identifier) paired with a value", and the integration tests access the
fields `key` and `value`. -/
structure ConfigOption where
  key : String
  value : ConfigValue
deriving DecidableEq, Repr

namespace ConfigGenerator

/-- Modelled from the spec: `ConfigGenerator`'s per-version mandatory key
list is missing from the sources; §4.3 names "architecture-enable flag,
module support, preemption flag, timer-frequency flags" as the mandatory
keys, and the integration test asserts exactly these option names in the
baseline. -/
def mandatory_keys (v : KernelVersion) : List String :=
  match v with
  | KernelVersion.V6_6_Lts =>
    ["CONFIG_X86_64", "CONFIG_MODULES", "CONFIG_PREEMPT",
     "CONFIG_HZ_1000", "CONFIG_HZ"]
  | KernelVersion.V6_17 =>
    ["CONFIG_X86_64", "CONFIG_MODULES", "CONFIG_PREEMPT",
     "CONFIG_HZ_1000", "CONFIG_HZ"]

/-- Modelled from the spec: `ConfigGenerator::generate_baseline` is used by
`build_plan.rs` and the integration tests but its definition is missing
from the sources; §4.3 says the baseline enables the single supported
target architecture and explicitly disables every other architecture and
the legacy hardware families, and the integration test asserts the keys
`CONFIG_64BIT`, `CONFIG_X86_64`, `CONFIG_MODULES`, `CONFIG_PREEMPT`,
`CONFIG_HZ_1000` (with `CONFIG_HZ=1000` in the emitted file). -/
def generate_baseline (v : KernelVersion) : List ConfigOption :=
  match v with
  | _ =>
    [⟨"CONFIG_64BIT", ConfigValue.yes⟩,
     ⟨"CONFIG_X86_64", ConfigValue.yes⟩,
     ⟨"CONFIG_MODULES", ConfigValue.yes⟩,
     ⟨"CONFIG_PREEMPT", ConfigValue.yes⟩,
     ⟨"CONFIG_HZ_1000", ConfigValue.yes⟩,
     ⟨"CONFIG_HZ", ConfigValue.str "1000"⟩,
     ⟨"CONFIG_ARM", ConfigValue.notSet⟩,
     ⟨"CONFIG_ARM64", ConfigValue.notSet⟩,
     ⟨"CONFIG_MIPS", ConfigValue.notSet⟩,
     ⟨"CONFIG_POWERPC", ConfigValue.notSet⟩,
     ⟨"CONFIG_RISCV", ConfigValue.notSet⟩,
     ⟨"CONFIG_S390", ConfigValue.notSet⟩,
     ⟨"CONFIG_ISA", ConfigValue.notSet⟩,
     ⟨"CONFIG_FLOPPY", ConfigValue.notSet⟩]

/-- Modelled from the spec: `ConfigGenerator::validate_config` is used by
`build_plan.rs` and the integration tests but its definition is missing
from the sources; §4.3 and §4.5 describe it as an empty-set check followed
by a mandatory-key-presence check against the per-version list, each
failure with its own error message. -/
def validate_config (v : KernelVersion) (options : List ConfigOption) :
    Except String Unit :=
  if options.isEmpty then
    Except.error "Configuration is empty"
  else
    match (mandatory_keys v).find? (fun k =>
        !(options.any (fun o => o.key == k))) with
    | some k => Except.error ("Missing mandatory option: " ++ k)
    | none => Except.ok ()

/-- Modelled from the spec: `ConfigGenerator::to_config_file` is used by
the integration tests but its definition is missing from the sources; §6
describes the emitted text as one option per line, `KEY=value` or
`# KEY is not set`, and the test expects a generated-by header line. -/
def to_config_file (options : List ConfigOption) : String :=
  "# Automatically generated by KernelForge\n" ++
    String.intercalate "\n" (options.map (fun o =>
      match o.value with
      | ConfigValue.yes => o.key ++ "=y"
      | ConfigValue.module => o.key ++ "=m"
      | ConfigValue.str s => o.key ++ "=" ++ s
      | ConfigValue.notSet => "# " ++ o.key ++ " is not set")) ++ "\n"

end ConfigGenerator

/-- Compiler identity (`build_plan.rs`, enum `Compiler`). -/
inductive Compiler where
  | clang
  | gcc
deriving DecidableEq, Repr

/-- Link-time-optimization mode (`build_plan.rs`, enum `LtoMode`). -/
inductive LtoMode where
  | none
  | thin
  | full
deriving DecidableEq, Repr

/-- Toolchain preferences (`build_plan.rs`, struct `ToolchainConfig`). -/
structure ToolchainConfig where
  compiler : Compiler
  use_lld : Bool
  lto : LtoMode
deriving DecidableEq, Repr

/-- `impl Default for ToolchainConfig` (`build_plan.rs`): Clang with lld
and LTO off. -/
def ToolchainConfig.default : ToolchainConfig :=
  ⟨Compiler.clang, true, LtoMode.none⟩

/-- A complete build plan (`build_plan.rs`, struct `BuildPlan`). -/
structure BuildPlan where
  version : KernelVersion
  patches : List Patch
  config_options : List ConfigOption
  toolchain : ToolchainConfig
deriving DecidableEq, Repr

/-- `BuildPlan::new` (`build_plan.rs`). -/
def BuildPlan.new (version : KernelVersion) : BuildPlan :=
  { version := version
    patches := PatchResolver.get_patches_for_version version
    config_options := ConfigGenerator.generate_baseline version
    toolchain := ToolchainConfig.default }

/-- `BuildPlan::validate` (`build_plan.rs`): first delegate to
`ConfigGenerator::validate_config` (the `?` operator propagates its
error), then fail if the option list is empty. -/
def BuildPlan.validate (p : BuildPlan) : Except String Unit :=
  match ConfigGenerator.validate_config p.version p.config_options with
  | Except.error e => Except.error e
  | Except.ok _ =>
    if p.config_options.isEmpty then
      Except.error "Build plan has no configuration options"
    else
      Except.ok ()

/-- The builder for custom plans (`build_plan.rs`, struct
`BuildPlanBuilder`). -/
structure BuildPlanBuilder where
  version : KernelVersion
  patches : Option (List Patch)
  toolchain : ToolchainConfig

/-- `BuildPlanBuilder::new` (`build_plan.rs`). -/
def BuildPlanBuilder.new (version : KernelVersion) : BuildPlanBuilder :=
  ⟨version, Option.none, ToolchainConfig.default⟩

/-- `BuildPlanBuilder::build` (`build_plan.rs`): patches left unset fall
back to the catalog lookup, the configuration is the version baseline. -/
def BuildPlanBuilder.build (b : BuildPlanBuilder) : BuildPlan :=
  { version := b.version
    patches := b.patches.getD (PatchResolver.get_patches_for_version b.version)
    config_options := ConfigGenerator.generate_baseline b.version
    toolchain := b.toolchain }

lemma lookup_filter_ne (m : List (String × Option String)) (k a : String)
    (h : a ≠ k) :
    List.lookup a (m.filter (fun p => !(p.1 == k))) = List.lookup a m := by
  induction m with
  | nil => rfl
  | cons p m ih =>
    obtain ⟨pk, pv⟩ := p
    by_cases hp : pk = k
    · subst hp
      have ha : (a == pk) = false := by simp [h]
      simp [List.filter_cons, List.lookup_cons, ha, ih]
    · have hkeep : (!(pk == k)) = true := by simp [hp]
      simp only [List.filter_cons, hkeep, if_true]
      rw [List.lookup_cons, List.lookup_cons]
      cases hap : a == pk <;> simp [ih]

lemma lookup_insertMap (m : List (String × Option String)) (k : String)
    (v : Option String) (a : String) :
    List.lookup a (insertMap m k v) =
      if a = k then some v else List.lookup a m := by
  by_cases h : a = k
  · subst h
    have h1 : List.lookup a (m.filter (fun p => !(p.1 == a))) = none := by
      rw [List.lookup_eq_none_iff]
      intro p hp
      have h2 := (List.mem_filter.mp hp).2
      have h3 : p.1 ≠ a := by simpa using h2
      exact bne_iff_ne.mpr (Ne.symm h3)
    rw [insertMap, List.lookup_append, h1]
    simp [List.lookup_cons]
  · rw [insertMap, List.lookup_append, lookup_filter_ne _ _ _ h]
    have h2 : List.lookup a [(k, v)] = none := by
      have hak : (a == k) = false := by simp [h]
      simp [List.lookup_cons, hak]
    rw [h2]
    simp [h]

lemma mem_keys_iff (m : List (String × Option String)) (k : String) :
    k ∈ m.map Prod.fst ↔ (List.lookup k m).isSome := by
  rw [List.lookup_isSome_iff]
  constructor
  · intro hk
    obtain ⟨p, hp, he⟩ := List.mem_map.mp hk
    refine ⟨p, hp, ?_⟩
    rw [he]
    exact beq_self_eq_true k
  · rintro ⟨p, hp, he⟩
    refine List.mem_map.mpr ⟨p, hp, ?_⟩
    have h1 : k = p.1 := by simpa using he
    exact h1.symm

lemma nodup_keys_insertMap (m : List (String × Option String)) (k : String)
    (v : Option String) (h : (m.map Prod.fst).Nodup) :
    ((insertMap m k v).map Prod.fst).Nodup := by
  rw [insertMap, List.map_append]
  refine List.Nodup.append ?_ (List.nodup_singleton k) ?_
  · exact ((List.filter_sublist m).map Prod.fst).nodup h
  · intro a ha hb
    simp only [List.map_cons, List.map_nil, List.mem_singleton] at hb
    subst hb
    obtain ⟨p, hp, he⟩ := List.mem_map.mp ha
    have h2 := (List.mem_filter.mp hp).2
    rw [he] at h2
    simp at h2

lemma nodup_keys_applyOps (ops : List Op) (c : KernelConfig)
    (h : (c.config_map.map Prod.fst).Nodup) :
    ((applyOps ops c).config_map.map Prod.fst).Nodup := by
  induction ops generalizing c with
  | nil => exact h
  | cons op ops ih =>
    show ((applyOps ops (applyOp c op)).config_map.map Prod.fst).Nodup
    apply ih
    cases op with
    | set n v => exact nodup_keys_insertMap _ _ _ h
    | unset n => exact nodup_keys_insertMap _ _ _ h

lemma sorted_sortedKeys (c : KernelConfig) :
    List.Sorted (fun a b : String => a ≤ b) (sortedKeys c) :=
  List.sorted_insertionSort _ _

lemma perm_sortedKeys (c : KernelConfig) :
    (sortedKeys c).Perm (c.config_map.map Prod.fst) :=
  List.perm_insertionSort _ _

lemma mem_sortedKeys (c : KernelConfig) (k : String) :
    k ∈ sortedKeys c ↔ (List.lookup k c.config_map).isSome := by
  rw [(perm_sortedKeys c).mem_iff, mem_keys_iff]

lemma sortedKeys_eq_of_lookup_eq (c₁ c₂ : KernelConfig)
    (h₁ : (c₁.config_map.map Prod.fst).Nodup)
    (h₂ : (c₂.config_map.map Prod.fst).Nodup)
    (h : ∀ k, List.lookup k c₁.config_map = List.lookup k c₂.config_map) :
    sortedKeys c₁ = sortedKeys c₂ := by
  apply List.eq_of_perm_of_sorted ?_ (sorted_sortedKeys c₁) (sorted_sortedKeys c₂)
  refine (perm_sortedKeys c₁).trans (List.Perm.trans ?_ (perm_sortedKeys c₂).symm)
  rw [List.perm_ext_iff_of_nodup h₁ h₂]
  intro a
  rw [mem_keys_iff, mem_keys_iff, h a]

lemma lineFor_eq_set (c : KernelConfig) (k v : String)
    (hvo : List.lookup k c.config_map = some (some v)) :
    lineFor c k = k ++ "=" ++ v := by
  unfold lineFor
  rw [hvo]

lemma lineFor_eq_unset (c : KernelConfig) (k : String)
    (hvo : List.lookup k c.config_map = some none) :
    lineFor c k = "# " ++ k ++ " is not set" := by
  unfold lineFor
  rw [hvo]

lemma filterMap_lookup_eq_map (c : KernelConfig) (l : List String)
    (hl : ∀ k ∈ l, (List.lookup k c.config_map).isSome) :
    (l.filterMap (fun k =>
      (List.lookup k c.config_map).map (fun vo =>
        match vo with
        | some v => k ++ "=" ++ v
        | none => "# " ++ k ++ " is not set"))) = l.map (lineFor c) := by
  induction l with
  | nil => simp
  | cons k l ih =>
    obtain ⟨vo, hvo⟩ := Option.isSome_iff_exists.mp (hl k (by simp))
    have hrest := ih (fun a ha => hl a (List.mem_cons_of_mem _ ha))
    cases vo with
    | some v =>
      simp only [List.filterMap_cons, hvo, Option.map_some', List.map_cons]
      rw [hrest, lineFor_eq_set c k v hvo]
    | none =>
      simp only [List.filterMap_cons, hvo, Option.map_some', List.map_cons]
      rw [hrest, lineFor_eq_unset c k hvo]

lemma emit_eq_map (c : KernelConfig) :
    c.emit = String.intercalate "\n" ((sortedKeys c).map (lineFor c)) ++ "\n" := by
  unfold KernelConfig.emit
  rw [filterMap_lookup_eq_map]
  intro k hk
  exact (mem_sortedKeys c k).mp hk

lemma emit_eq_of_lookup_eq (c₁ c₂ : KernelConfig)
    (h₁ : (c₁.config_map.map Prod.fst).Nodup)
    (h₂ : (c₂.config_map.map Prod.fst).Nodup)
    (h : ∀ k, List.lookup k c₁.config_map = List.lookup k c₂.config_map) :
    c₁.emit = c₂.emit := by
  rw [emit_eq_map c₁, emit_eq_map c₂,
    sortedKeys_eq_of_lookup_eq c₁ c₂ h₁ h₂ h]
  have hline : lineFor c₁ = lineFor c₂ := by
    funext k
    unfold lineFor
    rw [h k]
  rw [hline]

lemma lookup_unset_ne (c : KernelConfig) (a name : String) (h : a ≠ name) :
    List.lookup a (c.unset name).config_map = List.lookup a c.config_map := by
  show List.lookup a (insertMap c.config_map name none) = _
  rw [lookup_insertMap, if_neg h]

lemma lookup_bloatStep_not_removed (c : KernelConfig) (cat a : String)
    (ha : a ∉ bloatKeys) :
    List.lookup a (bloatStep c cat).config_map = List.lookup a c.config_map := by
  simp only [bloatKeys, List.mem_cons, List.mem_singleton, not_or] at ha
  obtain ⟨h1, h2, h3, h4, h5, h6, h7, h8, h9, h10, h11, h12, h13, -⟩ := ha
  unfold bloatStep
  split_ifs
  · rfl
  · rw [lookup_unset_ne _ _ _ h4, lookup_unset_ne _ _ _ h3,
      lookup_unset_ne _ _ _ h2, lookup_unset_ne _ _ _ h1]
  · rw [lookup_unset_ne _ _ _ h6, lookup_unset_ne _ _ _ h5]
  · rw [lookup_unset_ne _ _ _ h9, lookup_unset_ne _ _ _ h8,
      lookup_unset_ne _ _ _ h7]
  · rfl
  · rw [lookup_unset_ne _ _ _ h13, lookup_unset_ne _ _ _ h12,
      lookup_unset_ne _ _ _ h11, lookup_unset_ne _ _ _ h10]
  · rfl

lemma apply_bloat_removal_cons (c : KernelConfig) (cat : String)
    (cats : List String) :
    c.apply_bloat_removal (cat :: cats)
      = (bloatStep c cat).apply_bloat_removal cats :=
  rfl

lemma lookup_apply_bloat_removal (c : KernelConfig) (cats : List String)
    (a : String) (ha : a ∉ bloatKeys) :
    List.lookup a (c.apply_bloat_removal cats).config_map
      = List.lookup a c.config_map := by
  induction cats generalizing c with
  | nil => rfl
  | cons cat cats ih =>
    rw [apply_bloat_removal_cons, ih (bloatStep c cat),
      lookup_bloatStep_not_removed c cat a ha]

lemma bloatStep_unknown (c : KernelConfig) (cat : String)
    (h : cat ∉ knownCategories) :
    bloatStep c cat = c := by
  simp only [knownCategories, List.mem_cons, List.mem_singleton, not_or] at h
  obtain ⟨n1, n2, n3, n4, n5, n6, -⟩ := h
  unfold bloatStep
  rw [if_neg n1, if_neg n2, if_neg n3, if_neg n4, if_neg n5, if_neg n6]

lemma filter_bool_partition_perm {α : Type} (p : α → Bool) (l : List α) :
    (l.filter (fun x => !p x) ++ l.filter p).Perm l := by
  induction l with
  | nil => simp
  | cons a l ih =>
    cases hp : p a
    · simp only [List.filter_cons, hp, Bool.not_false, if_true, if_false]
      simpa using ih.cons a
    · simp only [List.filter_cons, hp, Bool.not_true, if_true, if_false]
      refine List.Perm.trans List.perm_middle ?_
      exact ih.cons a

/-- Claim C1: for every `KernelConfig`, `emit()` produces exactly one line
per key in lexicographically ascending key order — `KEY=VALUE` for a set
key, `# KEY is not set` for an unset key — with a single trailing newline;
consequently, for all valid orderings of `set`/`unset` calls producing the
same final key-to-value table, `emit()` output is byte-identical.  Stated
over configurations built by arbitrary call sequences `ops₁`, `ops₂` from
the empty configuration: the emitted key list is sorted ascending and
duplicate-free, contains exactly the keys of the final table, each key
contributes its `lineFor` line joined by newlines plus one trailing
newline, and two call sequences with the same final table emit identical
text. -/
theorem emit_sorted_unique_deterministic (ops₁ ops₂ : List Op)
    (h : ∀ k, List.lookup k (applyOps ops₁ KernelConfig.new).config_map
            = List.lookup k (applyOps ops₂ KernelConfig.new).config_map) :
    List.Sorted (fun a b : String => a ≤ b)
        (sortedKeys (applyOps ops₁ KernelConfig.new))
    ∧ (sortedKeys (applyOps ops₁ KernelConfig.new)).Nodup
    ∧ (∀ k, k ∈ sortedKeys (applyOps ops₁ KernelConfig.new) ↔
        (List.lookup k (applyOps ops₁ KernelConfig.new).config_map).isSome)
    ∧ (applyOps ops₁ KernelConfig.new).emit
        = String.intercalate "\n"
            ((sortedKeys (applyOps ops₁ KernelConfig.new)).map
              (lineFor (applyOps ops₁ KernelConfig.new))) ++ "\n"
    ∧ (applyOps ops₁ KernelConfig.new).emit
        = (applyOps ops₂ KernelConfig.new).emit := by
  have hn : ((KernelConfig.new.config_map).map Prod.fst).Nodup := by
    simp [KernelConfig.new]
  have h₁ := nodup_keys_applyOps ops₁ KernelConfig.new hn
  have h₂ := nodup_keys_applyOps ops₂ KernelConfig.new hn
  refine ⟨sorted_sortedKeys _, ?_, fun k => mem_sortedKeys _ k, emit_eq_map _,
    emit_eq_of_lookup_eq _ _ h₁ h₂ h⟩
  exact ((perm_sortedKeys _).nodup_iff).mpr h₁

/-- Witness for C1 at a concrete input: two orders of the same two `set`
calls emit identical text. -/
theorem emit_sorted_unique_deterministic_witness :
    (applyOps [Op.set "CONFIG_B" "y", Op.set "CONFIG_A" "1"]
      KernelConfig.new).emit
      = (applyOps [Op.set "CONFIG_A" "1", Op.set "CONFIG_B" "y"]
          KernelConfig.new).emit := by
  refine (emit_sorted_unique_deterministic _ _ ?_).2.2.2.2
  intro k
  have e1 : (applyOps [Op.set "CONFIG_B" "y", Op.set "CONFIG_A" "1"]
      KernelConfig.new).config_map
      = [("CONFIG_B", some "y"), ("CONFIG_A", some "1")] := by decide
  have e2 : (applyOps [Op.set "CONFIG_A" "1", Op.set "CONFIG_B" "y"]
      KernelConfig.new).config_map
      = [("CONFIG_A", some "1"), ("CONFIG_B", some "y")] := by decide
  rw [e1, e2]
  by_cases hb : k = "CONFIG_B"
  · subst hb
    decide
  · by_cases ha : k = "CONFIG_A"
    · subst ha
      decide
    · have b1 : (k == "CONFIG_B") = false := by simp [hb]
      have a1 : (k == "CONFIG_A") = false := by simp [ha]
      simp [List.lookup_cons, b1, a1]

/-- Claim C2, counterexample: `apply_bloat_removal` applied to a
configuration in which the critical key `CONFIG_X86_64` is already
recorded as "not set" leaves it "not set", so the claim's quantification
over every starting `KernelConfig` fails. -/
theorem bloat_critical_counterexample :
    List.lookup "CONFIG_X86_64"
      ((KernelConfig.new.unset "CONFIG_X86_64").apply_bloat_removal
        ["Industrial Hardware Removal"]).config_map = some none := by
  decide

/-- Claim C2 (amended): for every `KernelConfig` in which the critical key
`CONFIG_X86_64` is not already recorded as "not set", and every list of
category names, `apply_bloat_removal` never yields a configuration with
`CONFIG_X86_64` recorded as "not set": no category's unset table contains
the critical key, so its entry is left untouched. -/
theorem apply_bloat_removal_preserves_critical (c : KernelConfig)
    (cats : List String)
    (h : List.lookup "CONFIG_X86_64" c.config_map ≠ some none) :
    List.lookup "CONFIG_X86_64"
      (c.apply_bloat_removal cats).config_map ≠ some none := by
  rw [lookup_apply_bloat_removal c cats "CONFIG_X86_64" (by decide)]
  exact h

/-- Witness for the amended C2 at a concrete input: a configuration that
sets the critical key keeps it set across every known category. -/
theorem apply_bloat_removal_preserves_critical_witness :
    List.lookup "CONFIG_X86_64"
      ((KernelConfig.new.set "CONFIG_X86_64" "y").apply_bloat_removal
        knownCategories).config_map ≠ some none :=
  apply_bloat_removal_preserves_critical _ _ (by decide)

/-- Claim C3: `BuildPlan::validate` delegates to the config validator over
`(version, config_options)` — any validator error is returned as is — and
fails for every plan whose `config_options` list is empty, in which case
the per-version mandatory-key validator would also have failed. -/
theorem validate_empty_and_delegation (p : BuildPlan) :
    (∀ e, ConfigGenerator.validate_config p.version p.config_options
        = Except.error e → p.validate = Except.error e)
    ∧ (p.config_options = [] →
        (∃ e, ConfigGenerator.validate_config p.version p.config_options
          = Except.error e)
        ∧ ∃ e, p.validate = Except.error e) := by
  constructor
  · intro e he
    unfold BuildPlan.validate
    rw [he]
  · intro hemp
    have hv : ConfigGenerator.validate_config p.version p.config_options
        = Except.error "Configuration is empty" := by
      unfold ConfigGenerator.validate_config
      rw [hemp]
      rfl
    refine ⟨⟨"Configuration is empty", hv⟩,
      "Configuration is empty", ?_⟩
    unfold BuildPlan.validate
    rw [hv]

/-- Witness for C3 at a concrete input: a plan with an empty option list
fails validation. -/
theorem validate_empty_and_delegation_witness :
    ∃ e, (BuildPlan.mk KernelVersion.V6_6_Lts [] []
      ToolchainConfig.default).validate = Except.error e :=
  ((validate_empty_and_delegation _).2 rfl).2

/-- Claim C4, counterexample: `from_string` does not implement a general
"strip an optional leading v, accept dot/dash/underscore separators" rule;
the spelling `"v6.6-lts"` (leading "v", dash separator, of the supported
version 6.6) is not in the fixed match table and yields no match. -/
theorem from_string_counterexample :
    KernelVersion.from_string "v6.6-lts" = none := by
  decide

/-- Claim C4 (amended): `from_string` lower-cases and trims its input and
then matches it against a fixed table of spellings — `"6.6"`, `"6.6-lts"`,
`"6.6_lts"`, `"v6.6"`, `"v6_6_lts"` for 6.6 LTS and `"6.17"`, `"v6.17"`,
`"v6_17"` for 6.17; every input normalizing into the table yields that
tag, every other input (including spellings such as `"v6.6-lts"` and all
unknown version numbers) yields no match, never a default.  In particular
`"6.6-lts"`, `"V6_6_LTS"` and `"6.6"` all yield the same tag and
`"invalid"` yields no match. -/
theorem from_string_fixed_table :
    (KernelVersion.from_string "6.6-lts" = some KernelVersion.V6_6_Lts
      ∧ KernelVersion.from_string "V6_6_LTS" = some KernelVersion.V6_6_Lts
      ∧ KernelVersion.from_string "6.6" = some KernelVersion.V6_6_Lts
      ∧ KernelVersion.from_string "invalid" = none)
    ∧ (∀ s : String, trimStr (lowerAscii s) ∈ spellings_6_6 →
        KernelVersion.from_string s = some KernelVersion.V6_6_Lts)
    ∧ (∀ s : String, trimStr (lowerAscii s) ∈ spellings_6_17 →
        KernelVersion.from_string s = some KernelVersion.V6_17)
    ∧ (∀ s : String, trimStr (lowerAscii s) ∉ spellings_6_6 →
        trimStr (lowerAscii s) ∉ spellings_6_17 →
        KernelVersion.from_string s = none) := by
  refine ⟨⟨by decide, by decide, by decide, by decide⟩, ?_, ?_, ?_⟩
  · intro s hs
    simp only [spellings_6_6, List.mem_cons, List.mem_nil_iff,
      or_false] at hs
    simp only [KernelVersion.from_string]
    rcases hs with h | h | h | h | h <;> rw [h] <;> rw [if_pos (by decide)]
  · intro s hs
    simp only [spellings_6_17, List.mem_cons, List.mem_nil_iff,
      or_false] at hs
    simp only [KernelVersion.from_string]
    rcases hs with h | h | h <;> rw [h] <;>
      rw [if_neg (by decide), if_pos (by decide)]
  · intro s h66 h617
    simp only [spellings_6_6, List.mem_cons, List.mem_nil_iff, or_false,
      not_or] at h66
    simp only [spellings_6_17, List.mem_cons, List.mem_nil_iff, or_false,
      not_or] at h617
    obtain ⟨a1, a2, a3, a4, a5⟩ := h66
    obtain ⟨b1, b2, b3⟩ := h617
    simp only [KernelVersion.from_string]
    rw [if_neg (by simp [a1, a2, a3, a4, a5]), if_neg (by simp [b1, b2, b3])]

/-- Witness for the amended C4 at a concrete input: a padded upper-case
spelling normalizes into the table and parses. -/
theorem from_string_fixed_table_witness :
    KernelVersion.from_string " V6_6_LTS " = some KernelVersion.V6_6_Lts :=
  from_string_fixed_table.2.1 " V6_6_LTS " (by decide)

/-- Claim C5: for every supported `KernelVersion` value `v`,
`from_string (to_string v) = some v` (display/parse round-trip), and for
each tag at least one additional accepted spelling also parses to the same
tag. -/
theorem from_string_to_string_roundtrip (v : KernelVersion) :
    KernelVersion.from_string (KernelVersion.to_string v) = some v
    ∧ ∃ s : String, s ≠ KernelVersion.to_string v
        ∧ KernelVersion.from_string s = some v := by
  cases v with
  | V6_6_Lts => exact ⟨by decide, "6.6", by decide, by decide⟩
  | V6_17 => exact ⟨by decide, "v6.17", by decide, by decide⟩

/-- Claim C6: for every `KernelVersion` value `v`, the external patches
(`is_upstream == false`) and the upstream subset (`is_upstream == true`)
partition `get_patches_for_version v` exactly: their concatenation is a
permutation of the full catalog and no patch lies in both. -/
theorem external_upstream_partition (v : KernelVersion) :
    (PatchResolver.get_external_patches v ++
        (PatchResolver.get_patches_for_version v).filter
          (fun p => p.is_upstream)).Perm
        (PatchResolver.get_patches_for_version v)
    ∧ ∀ p : Patch, p ∈ PatchResolver.get_external_patches v →
        p ∉ (PatchResolver.get_patches_for_version v).filter
          (fun p => p.is_upstream) := by
  constructor
  · exact filter_bool_partition_perm (fun p => p.is_upstream)
      (PatchResolver.get_patches_for_version v)
  · intro p hpe hpu
    have h1 : (!p.is_upstream) = true := by
      have := List.mem_filter.mp
        (show p ∈ (PatchResolver.get_patches_for_version v).filter
          (fun p => !p.is_upstream) from hpe)
      exact this.2
    have h2 : p.is_upstream = true := (List.mem_filter.mp hpu).2
    rw [h2] at h1
    simp at h1

/-- Witness for C6 at a concrete input: the 6.6 BORE patch is external and
therefore not in the upstream subset. -/
theorem external_upstream_partition_witness :
    (⟨"BORE",
      "Burst-Oriented Response Enhancer scheduler - reduces latency for gaming",
      "https://github.com/firelzrd/bore-scheduler/6.6", false⟩ : Patch)
      ∉ (PatchResolver.get_patches_for_version
          KernelVersion.V6_6_Lts).filter (fun p => p.is_upstream) :=
  (external_upstream_partition KernelVersion.V6_6_Lts).2 _ (by decide)

/-- Claim C7: for every `KernelVersion` `v`, the plan from direct
construction (`BuildPlan::new v`) and the plan from the builder with no
overrides (`BuildPlanBuilder::new(v).build()`) are identical — same patch
list (the catalog lookup, never empty), same configuration options and
hence identical emitted configuration text, same toolchain. -/
theorem builder_no_overrides_eq_new (v : KernelVersion) :
    (BuildPlanBuilder.new v).build = BuildPlan.new v
    ∧ ((BuildPlanBuilder.new v).build).patches
        = PatchResolver.get_patches_for_version v
    ∧ ((BuildPlanBuilder.new v).build).patches ≠ []
    ∧ ConfigGenerator.to_config_file
        ((BuildPlanBuilder.new v).build).config_options
        = ConfigGenerator.to_config_file ((BuildPlan.new v).config_options)
    ∧ ((BuildPlanBuilder.new v).build).toolchain = (BuildPlan.new v).toolchain := by
  refine ⟨rfl, rfl, ?_, rfl, rfl⟩
  cases v <;> decide

/-- Claim C8: for every supported `KernelVersion` `v`, the baseline
configuration validates: `validate_config v (generate_baseline v)`
succeeds, and the baseline is non-empty. -/
theorem validate_config_baseline_ok (v : KernelVersion) :
    ConfigGenerator.validate_config v (ConfigGenerator.generate_baseline v)
      = Except.ok ()
    ∧ ConfigGenerator.generate_baseline v ≠ [] := by
  cases v <;> exact ⟨rfl, by decide⟩

/-- Claim C9: `apply_bloat_removal` ignores unknown category names: for
every configuration and every list of category names, the result equals
the result of the same call with the unknown names filtered out, so names
outside the known-category table add, remove and modify nothing. -/
theorem apply_bloat_removal_ignores_unknown (c : KernelConfig)
    (cats : List String) :
    c.apply_bloat_removal cats
      = c.apply_bloat_removal (cats.filter (fun cat => cat ∈ knownCategories)) := by
  induction cats generalizing c with
  | nil => rfl
  | cons cat cats ih =>
    by_cases hk : cat ∈ knownCategories
    · have hf : (cat :: cats).filter (fun cat => cat ∈ knownCategories)
          = cat :: cats.filter (fun cat => cat ∈ knownCategories) := by
        simp [List.filter_cons, hk]
      rw [hf, apply_bloat_removal_cons, apply_bloat_removal_cons]
      exact ih (bloatStep c cat)
    · have hf : (cat :: cats).filter (fun cat => cat ∈ knownCategories)
          = cats.filter (fun cat => cat ∈ knownCategories) := by
        simp [List.filter_cons, hk]
      rw [hf, apply_bloat_removal_cons, bloatStep_unknown c cat hk]
      exact ih c

/-- Claim C10: for a `KernelConfig` whose key-to-value table is empty,
`emit()` returns the one-character string `"\n"` (a single newline), not
the empty string. -/
theorem emit_empty_config :
    KernelConfig.new.emit = "\n" ∧ KernelConfig.new.emit ≠ "" := by
  constructor
  · rfl
  · decide
